import Mathlib

/-!
Shallow embedding of `duckpoll/duckpoll.py` (class `DuckPollCog`).

The cog keeps a global list of tracked duck polls
(`{guild_id, channel_id, message_id, created_at}` dicts under the
`messages` config key), listens to reaction-add and message-delete
events, runs a 60-second cleanup loop expiring polls older than 24
hours, and offers the `duck` / `duck stats` commands.

Network and framework side effects (sending messages, adding/removing
reactions, scheduling tasks) are modelled as an `Effect` list returned
alongside the new state; Python exceptions are modelled with
`Except PyError`.
-/

set_option autoImplicit false

/-- Python exceptions that the embedded code can raise. -/
inductive PyError where
  | typeError
  | zeroDivisionError
  | keyError
deriving DecidableEq, Repr

/-- discord fetch failures: `discord.NotFound`, `discord.Forbidden`,
`discord.HTTPException` (the tuple caught at lines 117 and 141). -/
inductive FetchError where
  | notFound
  | forbidden
  | httpException
deriving DecidableEq, Repr

/-- One stored tracked-poll dict, shape documented at line 14:
`{guild_id: int, channel_id: int, message_id: int, created_at: float}`.
`created_at` is a `time.time()` value, modelled as an integer timestamp. -/
structure TrackedPoll where
  guild_id : Nat
  channel_id : Nat
  message_id : Nat
  created_at : Int
deriving DecidableEq, Repr

/-- A `discord.Reaction` attached to a message: its emoji (as `str(r.emoji)`),
its `count` field, and the ids of the users returned by `r.users().flatten()`. -/
structure Reaction where
  emoji : String
  count : Int
  users : List Nat
deriving DecidableEq, Repr

/-- A `discord.Message`: `guild_id = none` models a DM (`message.guild is None`). -/
structure Message where
  id : Nat
  channel_id : Nat
  guild_id : Option Nat
  author_bot : Bool
  reactions : List Reaction
deriving DecidableEq, Repr

/-- A `discord.User` / `discord.Member` as used by the handlers. -/
structure User where
  id : Nat
  bot : Bool
deriving DecidableEq, Repr

/-- The command context: the guild and channel the command was invoked in. -/
structure Ctx where
  guild_id : Nat
  channel_id : Nat
deriving DecidableEq, Repr

/-- One `embed.add_field(name=..., value=..., inline=False)` call. -/
structure EmbedField where
  name : String
  value : String
  inline : Bool
deriving DecidableEq, Repr

/-- The `discord.Embed` built by `make_stats_embed` (the colour comes from
`ctx.embed_colour()`, an opaque host-framework value, and is not modelled). -/
structure Embed where
  title : String
  description : String
  fields : List EmbedField
deriving DecidableEq, Repr

/-- Observable side effects of the embedded operations, in order. -/
inductive Effect where
  /-- `ctx.send(text)` / `channel.send(text)` of a plain string. -/
  | sendText (text : String)
  /-- line 97: the poll message with the duck image attachment. -/
  | sendPollMessage
  /-- `message.add_reaction(emoji)`. -/
  | addReaction (emoji : String)
  /-- `message.clear_reaction(emoji)` (removes every reaction of that emoji). -/
  | clearReaction (emoji : String)
  /-- `message.remove_reaction(emoji, user)`. -/
  | removeReaction (emoji : String) (userId : Nat)
  /-- line 85: `self.bot.create_task(self.send_stats(m))`. -/
  | scheduleSendStats (m : TrackedPoll)
  /-- `send(embed=embed)`. -/
  | sendEmbed (e : Embed)
deriving DecidableEq, Repr

/-- `self.EMOJIS` (line 13): the nine recognized labels. -/
def EMOJIS : List String :=
  ["1️⃣", "2️⃣", "3️⃣", "4️⃣", "5️⃣", "6️⃣", "7️⃣", "8️⃣", "9️⃣"]

/-- Python's builtin `all` applied to positional `bool` arguments, as in
`all(b1, b2, b3)`. This always raises `TypeError`: with two or more
arguments because `all()` takes exactly one argument, and with exactly
one argument because a `bool` is not iterable. -/
def pyAllOnBools : List Bool → Except PyError Bool
  | [_] => .error .typeError
  | _ => .error .typeError

/-- `list(filter(f, xs))` (and `sorted(filter(f, xs))`, `(x,) = filter(f, xs)`
forcing the iterator) where the predicate `f` may raise: elements are
tested left to right and the first exception propagates. -/
def listFilterE {α : Type} (f : α → Except PyError Bool) :
    List α → Except PyError (List α)
  | [] => .ok []
  | x :: xs =>
    match f x with
    | .error e => .error e
    | .ok b =>
      match listFilterE f xs with
      | .error e => .error e
      | .ok rest => .ok (if b then x :: rest else rest)

/-- `d.get(k, default)` for a dict built by a comprehension from the
association list `l`: later bindings overwrite earlier ones, so the
last binding of `k` wins. -/
def dictGetLast (l : List (String × Int)) (k : String) (d : Int) : Int :=
  match l.reverse.find? (fun p => p.1 == k) with
  | some p => p.2
  | none => d

/-- Python true division `a / b` on ints: `ZeroDivisionError` when `b == 0`,
otherwise the exact quotient (floats are modelled as exact rationals). -/
def pyTrueDiv (a b : Int) : Except PyError Rat :=
  if b = 0 then .error .zeroDivisionError else .ok ((a : Rat) / (b : Rat))

/-- Python `round` to the nearest integer, ties to even. -/
def pyRound (q : Rat) : Int :=
  let f := q.floor
  let frac := q - (f : Rat)
  if frac < (1 : Rat) / 2 then f
  else if (1 : Rat) / 2 < frac then f + 1
  else if f % 2 = 0 then f else f + 1

/-- The three positional arguments handed to `all(...)` by the tracked-poll
matching lambda of `on_reaction_add` (lines 36-40). `gid` is
`message.guild.id`, available because the handler returned earlier if the
message had no guild. -/
def reactionMatchArgs (m : TrackedPoll) (gid : Nat) (message : Message) :
    List Bool :=
  [m.guild_id == gid, m.channel_id == message.channel_id,
   m.message_id == message.id]

/-- The three positional arguments handed to `all(...)` by the tracked-poll
matching lambda of `on_message_delete` (lines 67-69). -/
def deleteMatchArgs (m : TrackedPoll) (gid : Nat) (message : Message) :
    List Bool :=
  [m.guild_id == gid, m.channel_id == message.channel_id,
   m.message_id == message.id]

/-- The two positional arguments handed to `all(...)` by the channel-poll
matching lambda of `duck_stats` (line 108). -/
def statsMatchArgs (m : TrackedPoll) (ctx : Ctx) : List Bool :=
  [m.guild_id == ctx.guild_id, m.channel_id == ctx.channel_id]

/-- `on_reaction_add` (lines 24-55). The `discord.Reaction` argument is
split into its `str(reaction.emoji)` and its `reaction.message`. Returns
the new stored list and the emitted effects, or the uncaught exception. -/
def on_reaction_add (messages : List TrackedPoll) (reactionEmoji : String)
    (message : Message) (user : User) :
    Except PyError (List TrackedPoll × List Effect) :=
  match user.bot, message.guild_id with
  | true, _ => .ok (messages, [])
  | false, none => .ok (messages, [])
  | false, some gid =>
    match listFilterE (fun m => pyAllOnBools (reactionMatchArgs m gid message))
        messages with
    | .error e => .error e
    | .ok matched =>
      if matched.isEmpty then .ok (messages, [])
      else if !(EMOJIS.contains reactionEmoji) then
        .ok (messages, [.clearReaction reactionEmoji])
      else if 1 < (((message.reactions.map Reaction.users).flatten).filter
          (fun x => x == user.id)).length then
        .ok (messages, [.removeReaction reactionEmoji user.id])
      else .ok (messages, [])

/-- `on_message_delete` (lines 57-76). The tuple unpacking
`(stored_message,) = filter(...)` forces the filter; a `ValueError`
(zero or several items) is caught, a `TypeError` from the predicate is not. -/
def on_message_delete (messages : List TrackedPoll) (message : Message) :
    Except PyError (List TrackedPoll) :=
  match message.guild_id, message.author_bot with
  | none, _ => .ok messages
  | some _, false => .ok messages
  | some gid, true =>
    match listFilterE (fun m => pyAllOnBools (deleteMatchArgs m gid message))
        messages with
    | .error e => .error e
    | .ok [stored_message] => .ok (messages.erase stored_message)
    | .ok _ => .ok messages

/-- The age predicate of `cleanup_messages` (line 86):
`m["created_at"] < time.time() - 60*60*24`. -/
def expiredPred (now : Int) (m : TrackedPoll) : Bool :=
  m.created_at < now - 60 * 60 * 24

/-- One Python list-iterator walk of
`[(create_task(send_stats(m)), messages.remove(m)) for m in filter(pred, messages)]`
(lines 84-87): the filter's underlying list iterator advances by index `i`
over the *current* list, which `remove` mutates mid-iteration;
`remove` deletes the first element equal to `m`. The `fuel` argument is
only a structural-recursion bound: the index grows by one per step and the
list never grows, so with initial fuel `messages.length` the fuel cannot
run out before `i` passes the end of the list. -/
def cleanupIter (pred : TrackedPoll → Bool) :
    Nat → List TrackedPoll → Nat → List Effect →
    List TrackedPoll × List Effect
  | 0, l, _, effects => (l, effects)
  | fuel + 1, l, i, effects =>
    if h : i < l.length then
      let m := l.get ⟨i, h⟩
      if pred m then
        cleanupIter pred fuel (l.erase m) (i + 1)
          (effects ++ [.scheduleSendStats m])
      else
        cleanupIter pred fuel l (i + 1) effects
    else (l, effects)

/-- `cleanup_messages` (lines 80-87): the 60-second loop body. Returns the
stored list after the walk and the scheduled `send_stats` tasks in order. -/
def cleanup_messages (now : Int) (messages : List TrackedPoll) :
    List TrackedPoll × List Effect :=
  cleanupIter (expiredPred now) messages.length messages 0 []

/-- `duck` (lines 91-99): the bare `duck` command. Sends the poll message
with the duck image and adds the nine reactions; never touches
`config.messages`. -/
def duck (messages : List TrackedPoll) (invoked_subcommand : Bool) :
    List TrackedPoll × List Effect :=
  if invoked_subcommand then (messages, [])
  else
    (messages, .sendPollMessage :: EMOJIS.map (fun e => .addReaction e))

/-- `get_stats` (lines 157-161): reaction counts minus the bot's own
reaction for the recognized emojis, defaulting unseen emojis to 0. -/
def get_stats (message : Message) : List (String × Int) :=
  let reactions :=
    (message.reactions.filter (fun r => EMOJIS.contains r.emoji)).map
      (fun r => (r.emoji, r.count - 1))
  EMOJIS.map (fun e => (e, dictGetLast reactions e 0))

/-- The third argument of `make_stats_embed`: at line 122 `duck_stats`
passes the stored poll dict, but at line 148 `send_stats` passes the
fetched `discord.Message`. Subscripting a dict yields the value (or
`KeyError`); subscripting a `Message` raises `TypeError`. -/
inductive StatsData where
  | poll (p : TrackedPoll)
  | fetchedMessage (m : Message)
deriving Repr

/-- `data[key]` inside `make_stats_embed`. -/
def StatsData.getitem : StatsData → String → Except PyError Nat
  | .poll p, "guild_id" => .ok p.guild_id
  | .poll p, "channel_id" => .ok p.channel_id
  | .poll p, "message_id" => .ok p.message_id
  | .poll _, _ => .error .keyError
  | .fetchedMessage _, _ => .error .typeError

/-- The jump-link description of the stats embed (line 169). -/
def jumpLink (g c mi : Nat) : String :=
  "[Jump to message](https://discord.com/channels/" ++ toString g ++ "/"
    ++ toString c ++ "/" ++ toString mi ++ ")"

/-- The `value=` string of one stats field (lines 175-176):
`"".join("█" for _ in range(round(v / s * 10))).ljust(10, "░") + f" {round(v / s * 100)}%"`.
Raises `ZeroDivisionError` when `sum_of_votes == 0`. -/
def mkFieldValue (count : Int) (sum_of_votes : Int) : Except PyError String :=
  match pyTrueDiv count sum_of_votes with
  | .error e => .error e
  | .ok ratio =>
    let bars := List.replicate (pyRound (ratio * 10)).toNat '█'
    let padded := bars ++ List.replicate (10 - bars.length) '░'
    .ok (String.mk padded ++ " " ++ toString (pyRound (ratio * 100)) ++ "%")

/-- The `map(lambda v: embed.add_field(...), stats.items())` loop of
`make_stats_embed` (lines 171-181), walking the items in order; the first
exception raised while building a field value propagates. -/
def buildFields (stats : List (String × Int)) (sum_of_votes : Int) :
    Except PyError (List EmbedField) :=
  match stats with
  | [] => .ok []
  | v :: rest =>
    match mkFieldValue v.2 sum_of_votes with
    | .error e => .error e
    | .ok value =>
      match buildFields rest sum_of_votes with
      | .error e => .error e
      | .ok fields =>
        .ok ({ name := v.1 ++ " - " ++ toString v.2, value := value,
               inline := false } :: fields)

/-- `make_stats_embed` (lines 163-182). The `Embed(...)` constructor call
evaluates the description f-string (subscripting `data` three times, left
to right) before the `add_field` loop runs. -/
def make_stats_embed (stats : List (String × Int)) (data : StatsData) :
    Except PyError Embed :=
  let sum_of_votes := (stats.map Prod.snd).sum
  match data.getitem "guild_id", data.getitem "channel_id",
      data.getitem "message_id" with
  | .ok g, .ok c, .ok mi =>
    (match buildFields stats sum_of_votes with
     | .error e => .error e
     | .ok fields =>
       .ok { title := "Duck poll stats", description := jumpLink g c mi,
             fields := fields })
  | .error e, _, _ => .error e
  | .ok _, .error e, _ => .error e
  | .ok _, .ok _, .error e => .error e

/-- `duck_stats` (lines 103-123): the `duck stats` command.
`fetch_message` is `ctx.channel.fetch_message`. The rebinding of `ctx` at
line 121 only feeds `ctx.embed_colour()`, which is not modelled. -/
def duck_stats (messages : List TrackedPoll) (ctx : Ctx)
    (fetch_message : Nat → Except FetchError Message) :
    Except PyError (List Effect) :=
  match listFilterE (fun m => pyAllOnBools (statsMatchArgs m ctx))
      messages with
  | .error e => .error e
  | .ok filtered =>
    match filtered.mergeSort (fun a b => decide (a.created_at ≤ b.created_at)) with
    | [] => .ok [.sendText "No existing duck polls for this channel found"]
    | poll :: _ =>
      match fetch_message poll.message_id with
      | .error _ =>
        .ok [.sendText "No existing duck polls for this channel found"]
      | .ok message =>
        match make_stats_embed (get_stats message) (.poll poll) with
        | .error e => .error e
        | .ok embed => .ok [.sendEmbed embed]

/-- The host-framework lookups used by `send_stats`: whether
`bot.get_guild` / `guild.get_channel` succeed, and
`channel.fetch_message` keyed by channel id and message id. -/
structure BotEnv where
  get_guild : Nat → Bool
  get_channel : Nat → Nat → Bool
  fetch : Nat → Nat → Except FetchError Message

/-- `send_stats` (lines 127-149): the background stats emission. Note that
at line 148 the *fetched message* is passed to `make_stats_embed` as the
`data` argument, so the success path subscripts a `discord.Message`. -/
def send_stats (env : BotEnv) (m : TrackedPoll) (return_error : Bool) :
    Except PyError (List Effect) :=
  if env.get_guild m.guild_id = false then .ok []
  else if env.get_channel m.guild_id m.channel_id = false then .ok []
  else
    match env.fetch m.channel_id m.message_id with
    | .error _ =>
      if return_error then
        .ok [.sendText "No existing duck polls for this channel found"]
      else .ok []
    | .ok message =>
      match make_stats_embed (get_stats message) (.fetchedMessage message) with
      | .error e => .error e
      | .ok embed => .ok [.sendEmbed embed]

/-! ### Concrete fixtures used by counterexamples and witnesses -/

/-- A stored tracked poll in guild 10, channel 20, message 30. -/
def pollA : TrackedPoll := ⟨10, 20, 30, 100⟩

/-- The command context of guild 10, channel 20. -/
def ctxA : Ctx := ⟨10, 20⟩

/-- A bot-authored guild message that matches `pollA`, on which user 7
holds reactions under the two labels 1️⃣ and 2️⃣. -/
def msgA : Message :=
  ⟨30, 20, some 10, true, [⟨"1️⃣", 2, [7, 1]⟩, ⟨"2️⃣", 2, [7, 1]⟩]⟩

/-- A non-bot user with id 7. -/
def userA : User := ⟨7, false⟩

/-- A host environment in which every guild and channel lookup succeeds and
every message fetch fails with `discord.NotFound`. -/
def envNotFound : BotEnv :=
  ⟨fun _ => true, fun _ _ => true, fun _ _ => .error .notFound⟩

/-- The message of the spec's `computeStats` example: reaction counts
1️⃣:3 (including the bot) and 2️⃣:1 (bot only). -/
def c8msg : Message :=
  ⟨30, 20, some 10, true, [⟨"1️⃣", 3, []⟩, ⟨"2️⃣", 1, []⟩]⟩

/-- The expected `computeStats` result of the spec's example. -/
def c8expected : List (String × Int) :=
  [("1️⃣", 2), ("2️⃣", 0), ("3️⃣", 0), ("4️⃣", 0), ("5️⃣", 0),
   ("6️⃣", 0), ("7️⃣", 0), ("8️⃣", 0), ("9️⃣", 0)]

/-- The all-zero stats mapping of a poll with no votes. -/
def zeroStats : List (String × Int) := EMOJIS.map (fun e => (e, 0))

/-! ### Helper lemmas about `dictGetLast` -/

lemma find?_keys_nodup {l : List (String × Int)} {k : String} {v : Int}
    (hnd : (l.map Prod.fst).Nodup) (hmem : (k, v) ∈ l) :
    l.find? (fun p => p.1 == k) = some (k, v) := by
  induction l with
  | nil => cases hmem
  | cons a t ih =>
    rw [List.map_cons, List.nodup_cons] at hnd
    rcases List.mem_cons.mp hmem with h | h
    · subst h
      simp [List.find?_cons]
    · have hk : k ∈ t.map Prod.fst := List.mem_map.mpr ⟨(k, v), h, rfl⟩
      have ha : ¬(a.1 = k) := fun heq => hnd.1 (heq ▸ hk)
      have hb : (a.1 == k) = false := beq_eq_false_iff_ne.mpr ha
      simp only [List.find?_cons, hb]
      exact ih hnd.2 h

lemma dictGetLast_of_mem {l : List (String × Int)} {k : String} {v d : Int}
    (hnd : (l.map Prod.fst).Nodup) (hmem : (k, v) ∈ l) :
    dictGetLast l k d = v := by
  have h1 : (l.reverse.map Prod.fst).Nodup := by
    rw [List.map_reverse]
    exact (List.nodup_reverse).mpr hnd
  have h2 : (k, v) ∈ l.reverse := List.mem_reverse.mpr hmem
  unfold dictGetLast
  rw [find?_keys_nodup h1 h2]

lemma dictGetLast_of_absent {l : List (String × Int)} {k : String} {d : Int}
    (h : ∀ p ∈ l, p.1 ≠ k) : dictGetLast l k d = d := by
  unfold dictGetLast
  have hnone : l.reverse.find? (fun p => p.1 == k) = none := by
    rw [List.find?_eq_none]
    intro p hp
    simp only [beq_iff_eq]
    exact h p (List.mem_reverse.mp hp)
  rw [hnone]

/-! ### Claims -/

/-- C1: the claim says the bare `duck` command records a new TrackedPoll
for the sent poll message. The code (lines 91-99) sends the poll message
and adds the nine reactions but never writes to `config.messages`: for
every stored list the command leaves the stored collection exactly as it
was, so no TrackedPoll is ever created. -/
theorem C1_duck_records_no_poll :
    ∀ messages : List TrackedPoll,
      duck messages false
        = (messages, .sendPollMessage :: EMOJIS.map (fun e => .addReaction e)) := by
  intro messages
  rfl

/-- C2 counterexample: the claim describes the matching predicate of all
three operations as "a call of all() with three positional boolean
arguments", but the predicate of the stats command (line 108) passes only
two positional arguments to `all`. -/
theorem C2_stats_passes_two_args : (statsMatchArgs pollA ctxA).length ≠ 3 := by
  decide

/-- C2 (amended): the tracked-poll matching predicates call `all()` with
three positional boolean arguments in the reaction-added and
message-deleted handlers and with two in the stats command; in every case
this raises a `TypeError` that none of the three operations catch, so on a
non-empty stored list each terminates with the error before any matching,
reaction removal or list mutation, while on an empty stored list each
returns without error. -/
theorem C2_all_misuse :
    (∀ (m : TrackedPoll) (gid : Nat) (msg : Message),
        (reactionMatchArgs m gid msg).length = 3)
    ∧ (∀ (m : TrackedPoll) (gid : Nat) (msg : Message),
        (deleteMatchArgs m gid msg).length = 3)
    ∧ (∀ (m : TrackedPoll) (ctx : Ctx), (statsMatchArgs m ctx).length = 2)
    ∧ (∀ (messages : List TrackedPoll) (e : String)
        (mid cid gid uid : Nat) (ab : Bool) (rxs : List Reaction),
        messages ≠ [] →
        on_reaction_add messages e ⟨mid, cid, some gid, ab, rxs⟩ ⟨uid, false⟩
          = .error .typeError)
    ∧ (∀ (messages : List TrackedPoll)
        (mid cid gid : Nat) (rxs : List Reaction),
        messages ≠ [] →
        on_message_delete messages ⟨mid, cid, some gid, true, rxs⟩
          = .error .typeError)
    ∧ (∀ (messages : List TrackedPoll) (ctx : Ctx)
        (fetch : Nat → Except FetchError Message),
        messages ≠ [] → duck_stats messages ctx fetch = .error .typeError)
    ∧ (∀ (e : String) (msg : Message) (u : User),
        on_reaction_add [] e msg u = .ok ([], []))
    ∧ (∀ msg : Message, on_message_delete [] msg = .ok [])
    ∧ (∀ (ctx : Ctx) (fetch : Nat → Except FetchError Message),
        duck_stats [] ctx fetch
          = .ok [.sendText "No existing duck polls for this channel found"]) := by
  refine ⟨fun _ _ _ => rfl, fun _ _ _ => rfl, fun _ _ => rfl, ?_, ?_, ?_, ?_, ?_, ?_⟩
  · intro messages e mid cid gid uid ab rxs hne
    obtain ⟨m, rest, rfl⟩ := List.exists_cons_of_ne_nil hne
    rfl
  · intro messages mid cid gid rxs hne
    obtain ⟨m, rest, rfl⟩ := List.exists_cons_of_ne_nil hne
    rfl
  · intro messages ctx fetch hne
    obtain ⟨m, rest, rfl⟩ := List.exists_cons_of_ne_nil hne
    rfl
  · intro e msg u
    obtain ⟨uid, ubot⟩ := u
    obtain ⟨mid, cid, mg, ab, rxs⟩ := msg
    cases ubot <;> cases mg <;> rfl
  · intro msg
    obtain ⟨mid, cid, mg, ab, rxs⟩ := msg
    cases ab <;> cases mg <;> rfl
  · intro ctx fetch
    simp [duck_stats, listFilterE, List.mergeSort_nil]

/-- C2 witness: the three error cases of `C2_all_misuse` instantiated on
the one-element stored list `[pollA]`. -/
theorem C2_all_misuse_witness :
    on_reaction_add [pollA] "2️⃣" msgA userA = .error .typeError
    ∧ on_message_delete [pollA] msgA = .error .typeError
    ∧ duck_stats [pollA] ctxA (fun _ => .error .notFound)
        = .error .typeError :=
  ⟨C2_all_misuse.2.2.2.1 [pollA] "2️⃣" 30 20 10 7 true msgA.reactions
      (by simp),
   C2_all_misuse.2.2.2.2.1 [pollA] 30 20 10 msgA.reactions (by simp),
   C2_all_misuse.2.2.2.2.2.1 [pollA] ctxA (fun _ => .error .notFound)
      (by simp)⟩

/-- C3: the claim says that when a non-bot user holding reactions under two
labels of a tracked poll triggers the reaction-added handler for the newer
one, the handler removes that newest reaction and exactly one remains.
The code cannot do this: the tracked-poll membership filter (lines 34-43)
calls `all()` with three positional arguments, so with the matching poll
stored the handler dies with an uncaught `TypeError` before any removal;
here user 7 holds reactions under 1️⃣ and 2️⃣ and the handler runs for
2️⃣, yet no reaction is removed. -/
theorem C3_dedup_unreachable :
    (msgA.reactions.filter (fun r => r.users.contains userA.id)).length = 2
    ∧ on_reaction_add [pollA] "2️⃣" msgA userA = .error .typeError := by
  constructor
  · decide
  · rfl

/-- C4: the claim says a reaction with an unrecognized label on a tracked
poll is removed and the stored collection left unchanged. The label 🦆 is
outside the nine recognized ones, the message matches the stored poll, yet
the handler raises an uncaught `TypeError` in the membership filter
(lines 34-43) before reaching the self-heal branch at line 50, so the
reaction is never removed. -/
theorem C4_self_heal_unreachable :
    ¬("🦆" ∈ EMOJIS)
    ∧ on_reaction_add [pollA] "🦆" msgA userA = .error .typeError := by
  constructor
  · decide
  · rfl

/-- C5: the claim says deleting a message that matches a stored TrackedPoll
removes exactly that entry. Here the deleted bot-authored message `msgA`
matches `pollA` on all three ids, but the matching lambda (lines 67-69)
calls `all()` with three positional arguments and raises `TypeError`,
which the `except ValueError` at line 72 does not catch, so nothing is
removed. -/
theorem C5_delete_crashes :
    msgA.guild_id = some pollA.guild_id
    ∧ msgA.channel_id = pollA.channel_id
    ∧ msgA.id = pollA.message_id
    ∧ on_message_delete [pollA] msgA = .error .typeError := by
  exact ⟨rfl, rfl, rfl, rfl⟩

/-- C6: the claim says one expiry run removes every poll older than 24
hours, also when several expired polls are stored. The loop (lines 84-87)
removes list elements while the filter is iterating the same list by
index, so of two adjacent expired polls only the first is removed: with
`now = 200000`, both polls below are expired, yet the second survives the
cycle (and no stats task is scheduled for it). -/
theorem C6_expiry_skips_second :
    expiredPred 200000 ⟨1, 1, 1, 0⟩ = true
    ∧ expiredPred 200000 ⟨2, 2, 2, 1⟩ = true
    ∧ cleanup_messages 200000 [⟨1, 1, 1, 0⟩, ⟨2, 2, 2, 1⟩]
        = ([⟨2, 2, 2, 1⟩], [.scheduleSendStats ⟨1, 1, 1, 0⟩]) := by
  refine ⟨by decide, by decide, by decide⟩

/-- C7: the claim says `duck stats` selects the stored poll with the
greatest `created_at` for the invocation channel. With two polls stored
for guild 10 / channel 20 the command instead raises an uncaught
`TypeError` in its channel filter (line 108, `all()` with two positional
arguments) before selecting anything — and its selection expression
`sorted(...)[0]` takes the first element of an ascending sort, the least
`created_at`, not the greatest. -/
theorem C7_stats_selection_crashes :
    (⟨10, 20, 31, 100⟩ : TrackedPoll).created_at
        < (⟨10, 20, 32, 200⟩ : TrackedPoll).created_at
    ∧ ∀ fetch : Nat → Except FetchError Message,
        duck_stats [⟨10, 20, 31, 100⟩, ⟨10, 20, 32, 200⟩] ⟨10, 20⟩ fetch
          = .error .typeError := by
  exact ⟨by decide, fun _ => rfl⟩

/-- C8: `get_stats` returns a mapping whose domain is exactly the nine
recognized labels; on a message whose reactions carry pairwise distinct
emojis, each recognized label present among the reactions maps to its
reaction count minus one, each absent label maps to 0, and on the spec's
example message with counts {1️⃣:3, 2️⃣:1} it yields
{1️⃣:2, 2️⃣:0, 3️⃣:0, ..., 9️⃣:0}. -/
theorem C8_get_stats_correct :
    (∀ msg : Message, (get_stats msg).map Prod.fst = EMOJIS)
    ∧ (∀ msg : Message, (msg.reactions.map Reaction.emoji).Nodup →
        (∀ r ∈ msg.reactions, r.emoji ∈ EMOJIS →
          (r.emoji, r.count - 1) ∈ get_stats msg)
        ∧ (∀ e ∈ EMOJIS, (∀ r ∈ msg.reactions, r.emoji ≠ e) →
          (e, (0 : Int)) ∈ get_stats msg))
    ∧ get_stats c8msg = c8expected := by
  refine ⟨?_, ?_, by decide⟩
  · intro msg
    rfl
  · intro msg hnd
    constructor
    · intro r hr hre
      have hcont : EMOJIS.contains r.emoji = true := by
        simpa using hre
      have hpair : (r.emoji, r.count - 1)
          ∈ (msg.reactions.filter (fun r => EMOJIS.contains r.emoji)).map
              (fun r => (r.emoji, r.count - 1)) :=
        List.mem_map.mpr ⟨r, List.mem_filter.mpr ⟨hr, hcont⟩, rfl⟩
      have hkeys : (((msg.reactions.filter
            (fun r => EMOJIS.contains r.emoji)).map
              (fun r => (r.emoji, r.count - 1))).map Prod.fst).Nodup := by
        rw [List.map_map]
        exact hnd.sublist ((List.filter_sublist _).map _)
      have hval := dictGetLast_of_mem (d := 0) hkeys hpair
      exact List.mem_map.mpr ⟨r.emoji, hre, by rw [hval]⟩
    · intro e he habs
      have hval : dictGetLast
          ((msg.reactions.filter (fun r => EMOJIS.contains r.emoji)).map
            (fun r => (r.emoji, r.count - 1))) e 0 = 0 := by
        apply dictGetLast_of_absent
        intro p hp
        obtain ⟨r, hrf, rfl⟩ := List.mem_map.mp hp
        exact habs r (List.mem_filter.mp hrf).1
      exact List.mem_map.mpr ⟨e, he, by rw [hval]⟩

/-- C8 witness: applying the theorem on the spec's example message, label
1️⃣ (count 3 including the bot) maps to 2. -/
theorem C8_get_stats_correct_witness :
    ("1️⃣", (3 : Int) - 1) ∈ get_stats c8msg :=
  (C8_get_stats_correct.2.1 c8msg (by decide)).1 ⟨"1️⃣", 3, []⟩
    (by decide) (by decide)

/-- C9: the claim says a fetch failure is reported by the direct stats
command and silently swallowed by the background expiry path. The
background half holds: called without `return_error` (as the cleanup loop
does), `send_stats` returns no effect whenever the fetch fails, whatever
the failure. The direct half cannot happen: for a tracked poll to be
fetched the stored list is non-empty, and then `duck_stats` raises an
uncaught `TypeError` in its channel filter (line 108) before any fetch,
so the reported message is never sent. -/
theorem C9_fetch_failure_paths :
    (∀ (env : BotEnv) (m : TrackedPoll),
      (∃ e, env.fetch m.channel_id m.message_id = .error e) →
      send_stats env m false = .ok [])
    ∧ ∀ fetch : Nat → Except FetchError Message,
        duck_stats [pollA] ctxA fetch = .error .typeError := by
  constructor
  · rintro env m ⟨e, he⟩
    cases hg : env.get_guild m.guild_id with
    | false => simp [send_stats, hg]
    | true =>
      cases hc : env.get_channel m.guild_id m.channel_id with
      | false => simp [send_stats, hg, hc]
      | true => simp [send_stats, hg, hc, he]
  · intro fetch
    rfl

/-- C9 witness: the swallowed background failure and the crashing direct
command on the concrete environment whose fetches all fail. -/
theorem C9_fetch_failure_paths_witness :
    send_stats envNotFound pollA false = .ok []
    ∧ duck_stats [pollA] ctxA (fun _ => .error .notFound)
        = .error .typeError :=
  ⟨C9_fetch_failure_paths.1 envNotFound pollA ⟨.notFound, rfl⟩,
   C9_fetch_failure_paths.2 (fun _ => .error .notFound)⟩

/-- C10: on any stats mapping over the nine labels in which every count is
0 (a poll with no votes), `make_stats_embed` raises `ZeroDivisionError`
instead of returning an embed: the per-label field value divides by
`sum_of_votes = 0` without a zero guard (line 175). -/
theorem C10_stats_embed_divzero :
    ∀ (stats : List (String × Int)) (data : TrackedPoll),
      stats.map Prod.fst = EMOJIS → (∀ p ∈ stats, p.2 = 0) →
      make_stats_embed stats (StatsData.poll data)
        = .error .zeroDivisionError := by
  intro stats data hdom hzero
  have hsum : (stats.map Prod.snd).sum = 0 := by
    apply List.sum_eq_zero
    intro x hx
    obtain ⟨p, hp, rfl⟩ := List.mem_map.mp hx
    exact hzero p hp
  cases stats with
  | nil =>
    rw [List.map_nil] at hdom
    exact absurd hdom (by decide)
  | cons v rest =>
    have hcond : v.2 + (rest.map Prod.snd).sum = 0 := by simpa using hsum
    simp [make_stats_embed, StatsData.getitem, buildFields, mkFieldValue,
      pyTrueDiv, hcond]

/-- C10 witness: the theorem applied to the all-zero stats mapping. -/
theorem C10_stats_embed_divzero_witness :
    make_stats_embed zeroStats (StatsData.poll pollA)
      = .error .zeroDivisionError :=
  C10_stats_embed_divzero zeroStats pollA (by decide) (by decide)
